import Mathlib

/-!
Verification development for the QR-code scanning and duplicate-detection
pipeline of the ticket-stamp-scan-track repository.

The embedding follows the TypeScript source:
* Values that flow out of the JSON parser are modelled by JSValue, a model of
  the JavaScript runtime values that can appear in a parsed ticket payload.
  Numbers are modelled as integers: every payload exercised here is integral.
* processQRCode (pages Scanner.tsx) is split into its pure classification
  core, plus a control-flow model of the try/catch with the persistence call.
* useScanResults (hooks) provides loadScanResults with retry, the live-update
  subscription merge, and addScanResult with the signed-in guard.
* useQRScanner (hooks) provides the per-tick frame capture and the
  detection debounce.
-/

/-- Model of a JavaScript value reachable from a JSON-parsed ticket payload
field. The object constructor stands for any object or array value; two
object values coming from distinct parses are distinct references. -/
inductive JSValue where
  | undefined
  | jsNull
  | bool (b : Bool)
  | num (n : Int)
  | str (s : String)
  | object
deriving DecidableEq, Repr

/-- JavaScript truthiness of a JSValue. An empty string and the number zero
are falsy; every object is truthy. -/
def JSValue.truthy : JSValue → Bool
  | .undefined => false
  | .jsNull => false
  | .bool b => b
  | .num n => !(n == 0)
  | .str s => !(s == "")
  | .object => true

/-- JavaScript strict equality on modelled values. Cross-type comparisons
are false. Object values compare by reference; a freshly parsed object is
never the same reference as a cached value, so the comparison is false. -/
def strictEq : JSValue → JSValue → Bool
  | .undefined, .undefined => true
  | .jsNull, .jsNull => true
  | .bool a, .bool b => a == b
  | .num a, .num b => a == b
  | .str a, .str b => a == b
  | _, _ => false

/-- The JavaScript logical-or fallback idiom: v or fallback evaluates to v
when v is truthy and to the fallback otherwise. -/
def jsOr (v fallback : JSValue) : JSValue :=
  if v.truthy then v else fallback

/-- Scan classification status, from the ScanResult interface of
Scanner.tsx and useScanResults.ts. -/
inductive ScanStatus where
  | valid
  | invalid
  | duplicate
deriving DecidableEq, Repr

/-- A ScanResult entry of the in-memory history, as in the ScanResult
interface. The eventName and ticketNumber values are kept as runtime
JSValues: the local Scanner variant stores the payload fields unchanged,
and rows loaded from the store carry a string and an integer. -/
structure ScanResult where
  id : String
  eventName : JSValue
  ticketNumber : JSValue
  scanTime : String
  status : ScanStatus
  message : String
deriving DecidableEq, Repr

/-- The property-accessible result of JSON.parse on a scanned payload:
the eventName and ticketNumber properties, each undefined when absent. -/
structure TicketData where
  eventName : JSValue
  ticketNumber : JSValue
deriving DecidableEq, Repr

/-- The record built by processQRCode before persistence: the fields of
scanResultData in Scanner.tsx. -/
structure ScanResultData where
  eventName : JSValue
  ticketNumber : JSValue
  status : ScanStatus
  message : String
deriving DecidableEq, Repr

/-- The scanResultData built in the catch branch of processQRCode. -/
def invalidScanData : ScanResultData :=
  { eventName := JSValue.str "Invalid"
    ticketNumber := JSValue.num 0
    status := ScanStatus.invalid
    message := "Invalid QR code format" }

/-- The predicate of the scanResults.find call in processQRCode: strict
equality of the stored eventName and ticketNumber with the raw payload
fields. -/
def entryMatches (td : TicketData) (r : ScanResult) : Bool :=
  strictEq r.eventName td.eventName && strictEq r.ticketNumber td.ticketNumber

/-- existingScan, the result of scanResults.find in processQRCode. -/
def existingScan (h : List ScanResult) (td : TicketData) : Option ScanResult :=
  h.find? (entryMatches td)

/-- The classification core of processQRCode in Scanner.tsx. The parsed
argument is none exactly when the try block threw (JSON.parse failure, or a
property access on a non-object parse result) and the catch branch ran;
it is some td when the payload parsed to a property-accessible value with
fields td. The returned record is the scanResultData handed to
addScanResult. -/
def processQRCode (h : List ScanResult) (parsed : Option TicketData) : ScanResultData :=
  match parsed with
  | some td =>
      { eventName := jsOr td.eventName (JSValue.str "Unknown Event")
        ticketNumber := jsOr td.ticketNumber (JSValue.num 0)
        status := if (existingScan h td).isSome then ScanStatus.duplicate else ScanStatus.valid
        message := if (existingScan h td).isSome then "Ticket already scanned!"
                   else "Valid ticket - Access granted" }
  | none => invalidScanData

/-- Completion of a scanResultData into a stored ScanResult entry, with the
store-assigned id and scan time. -/
def mkScanResult (id scanTime : String) (d : ScanResultData) : ScanResult :=
  { id := id
    eventName := d.eventName
    ticketNumber := d.ticketNumber
    scanTime := scanTime
    status := d.status
    message := d.message }

/-- One submit operation as seen by the in-memory history: classify against
the current history and prepend the stored entry, newest first. -/
def submitStep (id scanTime : String) (h : List ScanResult) (parsed : Option TicketData) :
    List ScanResult :=
  mkScanResult id scanTime (processQRCode h parsed) :: h

/-- Histories reachable from the empty history by submit operations. -/
inductive ReachableHistory : List ScanResult → Prop where
  | nil : ReachableHistory []
  | step (id scanTime : String) (parsed : Option TicketData) (h : List ScanResult) :
      ReachableHistory h → ReachableHistory (submitStep id scanTime h parsed)

/-- Two entries carry the same (eventName, ticketNumber) pair, compared as
the classifier compares them. -/
def samePair (a b : ScanResult) : Bool :=
  strictEq a.eventName b.eventName && strictEq a.ticketNumber b.ticketNumber

/-- Shape invariant of entries produced by submit operations: the stored
eventName is truthy, and the stored ticketNumber is truthy or the number
zero. -/
def goodEntry (r : ScanResult) : Prop :=
  r.eventName.truthy = true ∧ (r.ticketNumber.truthy = true ∨ r.ticketNumber = JSValue.num 0)

/-- Statement of the claimed history invariant: every duplicate entry had,
at its classification time (the part of the history behind it), a prior
entry with the same pair and status valid. -/
def duplicateHasPriorValid (h : List ScanResult) : Prop :=
  ∀ i : Fin h.length, (h.get i).status = ScanStatus.duplicate →
    ∃ r ∈ h.drop (i.val + 1), samePair (h.get i) r = true ∧ r.status = ScanStatus.valid

/-- Outcome of a full processQRCode call including the persistence calls,
as observed by the caller. -/
inductive PersistFlow where
  | completed (written : ScanResultData)
  | raised
deriving DecidableEq, Repr

/-- Control flow of processQRCode in the Supabase Scanner variant: the whole
body, including the await of addScanResult, sits in one try block. insertOk
gives the outcome of each successive store insert call inside this submit
(true means the insert resolved). On a parsed payload, a failed first insert
is caught by the catch branch, which then inserts the invalid-format record;
only a failure of that second insert escapes to the caller. -/
def processQRCodeFlow (h : List ScanResult) (parsed : Option TicketData)
    (insertOk : Nat → Bool) : PersistFlow :=
  match parsed with
  | some td =>
      if insertOk 0 then PersistFlow.completed (processQRCode h (some td))
      else if insertOk 1 then PersistFlow.completed invalidScanData
      else PersistFlow.raised
  | none =>
      if insertOk 0 then PersistFlow.completed invalidScanData
      else PersistFlow.raised

/-- The state update of the live-update subscription handler in
useScanResults: prepend the pushed row to the previous cache. -/
def subscriptionMerge (r : ScanResult) (prev : List ScanResult) : List ScanResult :=
  r :: prev

/-- The cache effect of the local addScanResult path in the subscription
variants of useScanResults: the inserted row is returned but not added to
the state, since the real-time subscription handles it. -/
def addScanResultCacheUpdate (prev : List ScanResult) : List ScanResult :=
  prev

/-- The cache entries carrying a given result id. -/
def entriesWithId (i : String) (l : List ScanResult) : List ScanResult :=
  l.filter (fun r => r.id == i)

/-- Debounce state of the frame capture loop: lastDetectedCode and
lastDetectionTime in useQRScanner. The initial state is the empty string
and time zero. -/
structure DebounceState where
  lastDetectedCode : String
  lastDetectionTime : Int
deriving DecidableEq, Repr

/-- The debounce comparison of useQRScanner: fire (update state and invoke
the callback) when the payload differs from the last detected code or more
than windowMs elapsed since the last detection; otherwise suppress and keep
the state. The returned Bool is whether onQRCodeDetected was invoked. -/
def detectStep (windowMs : Int) (s : DebounceState) (p : String) (now : Int) :
    DebounceState × Bool :=
  if p ≠ s.lastDetectedCode ∨ now - s.lastDetectionTime > windowMs then
    (⟨p, now⟩, true)
  else
    (s, false)

/-- Handling of a tick on which the decoder returned a code object with
data p: the detection block is guarded by the truthiness of the data, so an
empty payload skips the debounce logic entirely. -/
def onDecoded (windowMs : Int) (s : DebounceState) (p : String) (now : Int) :
    DebounceState × Bool :=
  if p = "" then (s, false) else detectStep windowMs s p now

/-- What the tick can observe of the video and canvas collaborators:
whether the 2d context is available, whether readyState is
HAVE_ENOUGH_DATA, the reported frame dimensions, and the decoder result on
the captured frame (none when no QR code is found). -/
structure FrameSource where
  hasContext : Bool
  hasEnoughData : Bool
  videoWidth : Nat
  videoHeight : Nat
  decoded : Option String
deriving DecidableEq, Repr

/-- Whether the tick scheduled a next animation frame before returning. -/
inductive TickNext where
  | stopped
  | rescheduled
deriving DecidableEq, Repr

/-- Observable outcome of one scanQRCode tick: whether the loop continues,
the payload passed to onQRCodeDetected if any, and the debounce state after
the tick. The embedding is a total function: every branch of the source
returns normally. -/
structure TickResult where
  next : TickNext
  invoked : Option String
  state : DebounceState
deriving DecidableEq, Repr

/-- One tick of scanQRCode in the debounced useQRScanner variant (2000 ms
window, autoCloseOnScan option). hasRefs is the presence of the video and
canvas refs; isScanning is the active flag. The final reschedule of the
source runs when isScanning holds and either no code was decoded or
autoCloseOnScan is off. -/
def scanQRCodeTick (hasRefs isScanning autoCloseOnScan : Bool) (src : FrameSource)
    (s : DebounceState) (now : Int) : TickResult :=
  if !hasRefs || !isScanning then ⟨TickNext.stopped, none, s⟩
  else if !src.hasContext || !src.hasEnoughData then ⟨TickNext.rescheduled, none, s⟩
  else if src.videoWidth == 0 || src.videoHeight == 0 then ⟨TickNext.rescheduled, none, s⟩
  else
    match src.decoded with
    | none => ⟨TickNext.rescheduled, none, s⟩
    | some p =>
        if p = "" then
          ⟨if autoCloseOnScan then TickNext.stopped else TickNext.rescheduled, none, s⟩
        else
          match detectStep 2000 s p now with
          | (s2, true) =>
              if autoCloseOnScan then ⟨TickNext.stopped, some p, s2⟩
              else ⟨TickNext.rescheduled, some p, s2⟩
          | (_, false) =>
              ⟨if autoCloseOnScan then TickNext.stopped else TickNext.rescheduled, none, s⟩

/-- The backoff delay of the enhanced loadScanResults retry, in
milliseconds: 1000 times 2 to the retryCount, capped at 5000. -/
def backoffDelay (retryCount : Nat) : Nat :=
  min (1000 * 2 ^ retryCount) 5000

/-- Observable outcome of a loadScanResults call: how many store query
attempts ran, the waits between them, the cache contents written at the
end, and whether the outer catch handled a failure (the call itself always
resolves; no error reaches the caller). -/
structure LoadRun where
  attempts : Nat
  delays : List Nat
  cache : List ScanResult
  caught : Bool
deriving DecidableEq, Repr

/-- loadScanResults of the enhanced useScanResults variant. transient gives
whether the attempt with a given retryCount fails with a retryable error
(timeout, abort, fetch failure); rows is the data a successful query
returns. A transient failure retries while retryCount is below 3, waiting
backoffDelay retryCount in between; once retries are exhausted the error is
thrown to the catch of the same call, which writes the empty list to the
cache. -/
def loadScanResults (transient : Nat → Bool) (rows : List ScanResult) (retryCount : Nat) :
    LoadRun :=
  if transient retryCount then
    if h : retryCount < 3 then
      let rest := loadScanResults transient rows (retryCount + 1)
      ⟨rest.attempts + 1, backoffDelay retryCount :: rest.delays, rest.cache, rest.caught⟩
    else ⟨1, [], [], true⟩
  else ⟨1, [], rows, false⟩
termination_by 3 - retryCount
decreasing_by omega

/-- How an addScanResult call returns to its caller. -/
inductive AddOutcome where
  | skipped
  | returned (r : ScanResult)
  | raised
deriving DecidableEq, Repr

/-- Observable outcome of one addScanResult call: how it returned, how many
store insert calls it made, and the cache afterwards. -/
structure AddRun where
  outcome : AddOutcome
  insertAttempts : Nat
  cache : List ScanResult
deriving DecidableEq, Repr

/-- addScanResult of the subscription useScanResults variants. With no
authenticated user it returns at once with no value. Otherwise it runs one
store insert; insertReply is the inserted row on success and none on
failure, in which case the error is rethrown. The cache is not touched on
this path: the real-time subscription handles the new row. -/
def addScanResult (user : Option String) (cache : List ScanResult)
    (result : ScanResultData) (insertReply : Option ScanResult) : AddRun :=
  match user with
  | none => ⟨AddOutcome.skipped, 0, cache⟩
  | some _ =>
      match insertReply with
      | some row => ⟨AddOutcome.returned row, 1, cache⟩
      | none => ⟨AddOutcome.raised, 1, cache⟩

/-- Modelled from the spec words, for comparison with the implementation:
a duplicate check that searches the history with the extracted, defaulted
key of step 2 rather than the raw payload fields. -/
def specDefaultedDuplicate (h : List ScanResult) (td : TicketData) : Bool :=
  h.any (fun r =>
    strictEq r.eventName (jsOr td.eventName (JSValue.str "Unknown Event")) &&
    strictEq r.ticketNumber (jsOr td.ticketNumber (JSValue.num 0)))

/-- History of claim C2s counterexample: submit an unparseable payload from
the empty history, then submit the payload with eventName "Invalid" and
ticketNumber 0. The second submit matches the stored invalid-format entry
and is classified duplicate although no valid entry with that pair exists. -/
def hC2 : List ScanResult :=
  submitStep "2" "t2" (submitStep "1" "t1" [] none)
    (some ⟨JSValue.str "Invalid", JSValue.num 0⟩)

/-- History of claim C2s witness: submit the ticket (E, 7) twice from the
empty history; the second entry is a duplicate. -/
def hC2W : List ScanResult :=
  submitStep "2" "t2" (submitStep "1" "t1" [] (some ⟨JSValue.str "E", JSValue.num 7⟩))
    (some ⟨JSValue.str "E", JSValue.num 7⟩)

example : (processQRCode [] (some ⟨JSValue.str "E", JSValue.num 7⟩)).status = ScanStatus.valid := by
  decide

example :
    (processQRCode [mkScanResult "1" "t" (processQRCode [] (some ⟨JSValue.str "E", JSValue.num 7⟩))]
      (some ⟨JSValue.str "E", JSValue.num 7⟩)).status = ScanStatus.duplicate := by
  decide

example : loadScanResults (fun _ => true) [] 0 = ⟨4, [1000, 2000, 4000], [], true⟩ := by
  rw [loadScanResults, loadScanResults, loadScanResults, loadScanResults]
  simp [backoffDelay]

/-! ## Helper lemmas -/

/-- Strict equality only holds between equal values of the same non-object
constructor. -/
theorem strictEq_eq {a b : JSValue} (h : strictEq a b = true) : a = b := by
  cases a <;> cases b <;> simp_all [strictEq]

/-- A value strictly equal to something is not an object, so strict
equality on it is reflexive. -/
theorem strictEq_refl_of_strictEq {a b : JSValue} (h : strictEq a b = true) :
    strictEq a a = true := by
  cases a <;> cases b <;> simp_all [strictEq]

/-- The fallback idiom preserves truthiness of the fallback. -/
theorem jsOr_truthy {v d : JSValue} (hd : d.truthy = true) : (jsOr v d).truthy = true := by
  unfold jsOr
  split <;> simp_all

/-- A truthy value passes through the fallback idiom unchanged. -/
theorem jsOr_of_truthy {v d : JSValue} (hv : v.truthy = true) : jsOr v d = v := by
  simp [jsOr, hv]

/-- Every entry of a reachable history has a truthy stored eventName and a
stored ticketNumber that is truthy or the number zero. -/
theorem reachable_goodEntry {h : List ScanResult} (hr : ReachableHistory h) :
    ∀ r ∈ h, goodEntry r := by
  induction hr with
  | nil => intro r hr; cases hr
  | step id scanTime parsed h₀ _ ih =>
      intro r hmem
      rcases List.mem_cons.mp hmem with hhead | htail
      · subst hhead
        cases parsed with
        | none =>
            constructor
            · rfl
            · exact Or.inr rfl
        | some td =>
            constructor
            · exact jsOr_truthy (by decide)
            · by_cases hv : td.ticketNumber.truthy = true
              · exact Or.inl (by simpa [mkScanResult, processQRCode, jsOr_of_truthy hv] using hv)
              · refine Or.inr ?_
                simp only [submitStep, mkScanResult, processQRCode]
                simp [jsOr, hv]
      · exact ih r htail

/-! ## Claim theorems -/

/-- Claim C1: for every in-memory history and every successfully parsed
payload, processQRCode classifies the scan as duplicate with message
"Ticket already scanned!" exactly when the history contains an entry whose
(eventName, ticketNumber) pair matches the payload fields, and otherwise
classifies it valid with message "Valid ticket - Access granted"; in
particular, with a history containing a valid result for eventName "E" and
ticketNumber 7, submitting that pair again yields duplicate and submitting
(E, 8) yields valid. -/
theorem c1_classification :
    (∀ (h : List ScanResult) (td : TicketData),
        ((processQRCode h (some td)).status = ScanStatus.duplicate ∧
          (processQRCode h (some td)).message = "Ticket already scanned!") ↔
          ∃ r ∈ h, entryMatches td r = true) ∧
    (∀ (h : List ScanResult) (td : TicketData),
        ((processQRCode h (some td)).status = ScanStatus.valid ∧
          (processQRCode h (some td)).message = "Valid ticket - Access granted") ↔
          ¬ ∃ r ∈ h, entryMatches td r = true) ∧
    (processQRCode [⟨"1", JSValue.str "E", JSValue.num 7, "t1", ScanStatus.valid,
        "Valid ticket - Access granted"⟩]
      (some ⟨JSValue.str "E", JSValue.num 7⟩)).status = ScanStatus.duplicate ∧
    (processQRCode [⟨"1", JSValue.str "E", JSValue.num 7, "t1", ScanStatus.valid,
        "Valid ticket - Access granted"⟩]
      (some ⟨JSValue.str "E", JSValue.num 8⟩)).status = ScanStatus.valid := by
  have key : ∀ (h : List ScanResult) (td : TicketData),
      (existingScan h td).isSome = true ↔ ∃ r ∈ h, entryMatches td r = true := by
    intro h td
    simpa [existingScan] using @List.find?_isSome ScanResult h (entryMatches td)
  refine ⟨?_, ?_, by decide, by decide⟩
  · intro h td
    by_cases hf : (existingScan h td).isSome = true
    · exact iff_of_true ⟨by simp [processQRCode, hf], by simp [processQRCode, hf]⟩
        ((key h td).mp hf)
    · refine iff_of_false ?_ (fun hex => hf ((key h td).mpr hex))
      rintro ⟨hs, -⟩
      exact absurd hs (by simp [processQRCode, hf])
  · intro h td
    by_cases hf : (existingScan h td).isSome = true
    · refine iff_of_false ?_ (fun hnex => hnex ((key h td).mp hf))
      rintro ⟨hs, -⟩
      exact absurd hs (by simp [processQRCode, hf])
    · exact iff_of_true ⟨by simp [processQRCode, hf], by simp [processQRCode, hf]⟩
        (fun hex => hf ((key h td).mpr hex))

/-- Claim C2, counterexample: hC2 is reachable by two submit operations and
its newest entry is a duplicate, yet the history present at its
classification time has no entry with the same pair and status valid (the
matched entry is the stored invalid-format record). -/
theorem c2_counterexample : ReachableHistory hC2 ∧ ¬ duplicateHasPriorValid hC2 :=
  ⟨ReachableHistory.step "2" "t2" _ _
      (ReachableHistory.step "1" "t1" none [] ReachableHistory.nil),
    fun hinv => by
      have h0 := hinv ⟨0, by decide⟩ (by decide)
      revert h0
      decide⟩

/-- Claim C2, amended: a duplicate entry of a reachable history had, at its
classification time, a prior entry with the same (eventName, ticketNumber)
pair — of any status, not necessarily valid. The classifier matches any
prior entry with the pair, including invalid-format and duplicate
entries. -/
theorem c2_amended : ∀ (h : List ScanResult), ReachableHistory h →
    ∀ i : Fin h.length, (h.get i).status = ScanStatus.duplicate →
      ∃ r ∈ h.drop (i.val + 1), samePair (h.get i) r = true := by
  intro h hr
  induction hr with
  | nil =>
      intro i
      exact absurd i.isLt (by simp)
  | step id scanTime parsed h₀ hr ih =>
      intro i hdup
      obtain ⟨iv, hi⟩ := i
      cases iv with
      | zero =>
          cases parsed with
          | none =>
              exact absurd hdup (by simp [submitStep, mkScanResult, processQRCode,
                invalidScanData, List.get])
          | some td =>
              by_cases hf : (existingScan h₀ td).isSome = true
              · obtain ⟨r, hfind⟩ := Option.isSome_iff_exists.mp hf
                have hfind' : h₀.find? (entryMatches td) = some r := hfind
                have hmem : r ∈ h₀ := List.mem_of_find?_eq_some hfind'
                have hp : entryMatches td r = true := List.find?_some hfind'
                rw [entryMatches, Bool.and_eq_true] at hp
                obtain ⟨he, ht⟩ := hp
                obtain ⟨hg1, hg2⟩ := reachable_goodEntry hr r hmem
                have heq : r.eventName = td.eventName := strictEq_eq he
                refine ⟨r, hmem, ?_⟩
                show samePair (mkScanResult id scanTime (processQRCode h₀ (some td))) r = true
                rw [samePair, Bool.and_eq_true]
                constructor
                · show strictEq (jsOr td.eventName (JSValue.str "Unknown Event")) r.eventName = true
                  rw [← heq, jsOr_of_truthy hg1]
                  exact strictEq_refl_of_strictEq he
                · show strictEq (jsOr td.ticketNumber (JSValue.num 0)) r.ticketNumber = true
                  have htq : r.ticketNumber = td.ticketNumber := strictEq_eq ht
                  rcases hg2 with hg2 | hg2
                  · rw [← htq, jsOr_of_truthy hg2]
                    exact strictEq_refl_of_strictEq ht
                  · rw [← htq, hg2]
                    decide
              · exact absurd hdup (by simp [submitStep, mkScanResult, processQRCode,
                  hf, List.get])
      | succ j =>
          exact ih ⟨j, Nat.lt_of_succ_lt_succ hi⟩ hdup

/-- Claim C2, witness for the amended theorem: in the reachable history
hC2W, whose newest entry is a duplicate for the pair (E, 7), the earlier
history holds an entry with the same pair. -/
theorem c2_amended_witness :
    ∃ r ∈ hC2W.drop 1, samePair (hC2W.get ⟨0, by decide⟩) r = true :=
  c2_amended hC2W
    (ReachableHistory.step "2" "t2" _ _
      (ReachableHistory.step "1" "t1" _ [] ReachableHistory.nil))
    ⟨0, by decide⟩ (by decide)

/-- Claim C3, counterexample: on a tick where the decoder yields the empty
payload, the callback is not invoked and the debounce state is left
unchanged even though the payload differs from the stored lastDetectedCode
and the window has long expired. The detection block is guarded by the
truthiness of the decoded data, and the empty string is falsy, so an empty
payload never reaches the debounce comparison. -/
theorem c3_counterexample :
    onDecoded 1000 ⟨"x", 0⟩ "" 5000 = (⟨"x", 0⟩, false) ∧
      ¬("" = "x" ∧ (5000 : Int) - 0 ≤ 1000) :=
  ⟨rfl, by decide⟩

/-- Claim C3, amended, for every nonempty payload: the callback is
suppressed exactly when the payload equals lastDetectedCode and the elapsed
time is within the window (at most windowMs, that is, strictly below the
threshold windowMs plus one); otherwise the state becomes the pair of the
payload and the current time and the callback is invoked. Consequently two
detections of the same nonempty payload within the window invoke the
callback once, and two distinct nonempty payloads back to back invoke it
twice regardless of timing. -/
theorem c3_amended :
    (∀ (w : Int) (s : DebounceState) (p : String) (now : Int), p ≠ "" →
      (((onDecoded w s p now).2 = false) ↔
        (p = s.lastDetectedCode ∧ now - s.lastDetectionTime ≤ w)) ∧
      ((onDecoded w s p now).2 = true → (onDecoded w s p now).1 = ⟨p, now⟩) ∧
      ((onDecoded w s p now).2 = false → (onDecoded w s p now).1 = s)) ∧
    (∀ (w : Int) (s : DebounceState) (p : String) (t₁ t₂ : Int), p ≠ "" →
      (onDecoded w s p t₁).2 = true → t₂ - t₁ ≤ w →
      (onDecoded w ((onDecoded w s p t₁).1) p t₂).2 = false) ∧
    (∀ (w : Int) (s : DebounceState) (p₁ p₂ : String) (t₁ t₂ : Int), p₁ ≠ "" → p₂ ≠ "" →
      p₁ ≠ p₂ → (onDecoded w s p₁ t₁).2 = true →
      (onDecoded w ((onDecoded w s p₁ t₁).1) p₂ t₂).2 = true) := by
  have hstate : ∀ (w : Int) (s : DebounceState) (p : String) (t : Int), p ≠ "" →
      (onDecoded w s p t).2 = true → (onDecoded w s p t).1 = ⟨p, t⟩ := by
    intro w s p t hp hfired
    unfold onDecoded detectStep at hfired ⊢
    rw [if_neg hp] at hfired ⊢
    by_cases hc : p ≠ s.lastDetectedCode ∨ t - s.lastDetectionTime > w
    · rw [if_pos hc]
    · rw [if_neg hc] at hfired
      simp at hfired
  refine ⟨?_, ?_, ?_⟩
  · intro w s p now hp
    unfold onDecoded detectStep
    rw [if_neg hp]
    by_cases hc : p ≠ s.lastDetectedCode ∨ now - s.lastDetectionTime > w
    · rw [if_pos hc]
      refine ⟨?_, fun _ => rfl, fun hfalse => by simp at hfalse⟩
      constructor
      · intro hh
        exact absurd hh (by simp)
      · rintro ⟨h1, h2⟩
        rcases hc with hc | hc
        · exact absurd h1 hc
        · omega
    · rw [if_neg hc]
      push_neg at hc
      exact ⟨iff_of_true rfl ⟨hc.1, by omega⟩, fun ht => by simp at ht, fun _ => rfl⟩
  · intro w s p t₁ t₂ hp hfired hwin
    rw [hstate w s p t₁ hp hfired]
    unfold onDecoded detectStep
    rw [if_neg hp]
    have hc : ¬(p ≠ p ∨ t₂ - t₁ > w) := by
      push_neg
      exact ⟨rfl, by omega⟩
    rw [if_neg hc]
  · intro w s p₁ p₂ t₁ t₂ hp₁ hp₂ hne hfired
    rw [hstate w s p₁ t₁ hp₁ hfired]
    unfold onDecoded detectStep
    rw [if_neg hp₂]
    rw [if_pos (Or.inl (show p₂ ≠ p₁ from fun hh => hne hh.symm))]

/-- Claim C3, witness for the amended theorem: starting from the initial
debounce state, detecting the payload A at time 1 fires the callback, and
detecting A again at time 800 within a 1000 ms window is suppressed. -/
theorem c3_witness :
    (onDecoded 1000 ⟨"", 0⟩ "A" 1).2 = true ∧
    (onDecoded 1000 ((onDecoded 1000 ⟨"", 0⟩ "A" 1).1) "A" 800).2 = false :=
  ⟨by decide, c3_amended.2.1 1000 ⟨"", 0⟩ "A" 1 800 (by decide) (by decide) (by decide)⟩

/-- Claim C4, code-bug evaluation: classify the ticket (E, 7) against the
empty history (status valid), but let the first store insert fail and the
second succeed. The call completes normally having written the
invalid-format record in place of the classified valid one: the persist
failure is caught by the same catch branch as a parse failure, so it is not
surfaced to the caller as a failed operation, and a different ScanResult is
written instead. -/
theorem c4_persist_failure :
    processQRCodeFlow [] (some ⟨JSValue.str "E", JSValue.num 7⟩) (fun n => decide (n ≠ 0)) =
      PersistFlow.completed invalidScanData ∧
    (processQRCode [] (some ⟨JSValue.str "E", JSValue.num 7⟩)).status = ScanStatus.valid ∧
    invalidScanData ≠ processQRCode [] (some ⟨JSValue.str "E", JSValue.num 7⟩) :=
  ⟨by decide, by decide, by decide⟩

/-- The row used by the claim C5 theorems. -/
def rDemo : ScanResult :=
  ⟨"id-1", JSValue.str "E", JSValue.num 7, "t1", ScanStatus.valid,
    "Valid ticket - Access granted"⟩

/-- Claim C5, counterexample: the subscription state update is a plain
prepend with no id-based deduplication, so it is not idempotent — merging
the same row twice leaves two entries with its id. -/
theorem c5_counterexample :
    (entriesWithId rDemo.id (subscriptionMerge rDemo (subscriptionMerge rDemo []))).length = 2 ∧
      subscriptionMerge rDemo (subscriptionMerge rDemo []) ≠ subscriptionMerge rDemo [] :=
  ⟨by decide, by decide⟩

/-- Claim C5, amended: the displayed history ends up with exactly one entry
per result id not because the merge deduplicates, but because the local
addScanResult path leaves the cache untouched (the echo is the single
source of truth): a local submit followed by its live-update echo adds an
id that was absent exactly once. -/
theorem c5_amended : ∀ (cache : List ScanResult) (r : ScanResult),
    (entriesWithId r.id cache).length = 0 →
    (entriesWithId r.id (subscriptionMerge r (addScanResultCacheUpdate cache))).length = 1 := by
  intro cache r h
  unfold entriesWithId at h
  unfold entriesWithId subscriptionMerge addScanResultCacheUpdate
  rw [List.filter_cons]
  simp [h]

/-- Claim C5, witness for the amended theorem: adding the demo row to the
empty cache through a local submit followed by its echo yields one entry
with its id. -/
theorem c5_witness :
    (entriesWithId rDemo.id (subscriptionMerge rDemo (addScanResultCacheUpdate []))).length = 1 :=
  c5_amended [] rDemo (by decide)

/-- Claim C6: whenever the parse step fails (for instance on the raw input
string "not json", on which JSON.parse throws), the catch branch runs and
processQRCode produces, without raising, a record with status invalid,
eventName "Invalid", ticketNumber 0 and message "Invalid QR code format",
for every history. -/
theorem c6_invalid_format : ∀ (h : List ScanResult),
    (processQRCode h none).status = ScanStatus.invalid ∧
    (processQRCode h none).eventName = JSValue.str "Invalid" ∧
    (processQRCode h none).ticketNumber = JSValue.num 0 ∧
    (processQRCode h none).message = "Invalid QR code format" :=
  fun _ => ⟨rfl, rfl, rfl, rfl⟩

/-- Attempt count of loadScanResults, bounded by the remaining retry
budget plus one. -/
theorem load_attempts_aux (transient : Nat → Bool) (rows : List ScanResult) :
    ∀ n retryCount, 3 - retryCount ≤ n →
      (loadScanResults transient rows retryCount).attempts ≤ 3 - retryCount + 1 := by
  intro n
  induction n with
  | zero =>
      intro rc h
      rw [loadScanResults]
      have h3 : ¬ rc < 3 := by omega
      split
      · simp [h3]
      · simp
  | succ n ih =>
      intro rc h
      rw [loadScanResults]
      split
      · by_cases h3 : rc < 3
        · simp only [h3, dif_pos]
          have := ih (rc + 1) (by omega)
          omega
        · simp [h3]
      · simp

/-- Claim C7: every loadScanResults call runs at most four store query
attempts; and when the first four attempts all fail transiently (more than
the retry ceiling of three retries), the operation terminates after exactly
four attempts, with the exponentially growing waits of 1000, 2000 and 4000
milliseconds between them, and finishes by writing the empty list to the
cache with the failure caught rather than propagated to the caller. -/
theorem c7_retry_ceiling :
    (∀ (transient : Nat → Bool) (rows : List ScanResult) (retryCount : Nat),
        (loadScanResults transient rows retryCount).attempts ≤ 4) ∧
    (∀ (transient : Nat → Bool) (rows : List ScanResult),
        (∀ i, i < 4 → transient i = true) →
        loadScanResults transient rows 0 = ⟨4, [1000, 2000, 4000], [], true⟩) := by
  constructor
  · intro transient rows rc
    have := load_attempts_aux transient rows (3 - rc) rc (le_refl _)
    omega
  · intro transient rows hf
    rw [loadScanResults, loadScanResults, loadScanResults, loadScanResults]
    simp [hf 0 (by omega), hf 1 (by omega), hf 2 (by omega), hf 3 (by omega), backoffDelay]

/-- Claim C7, witness: with every attempt failing transiently, the load
terminates after four attempts with backoff 1000, 2000, 4000 and an empty
cache. -/
theorem c7_witness :
    loadScanResults (fun _ => true) [] 0 = ⟨4, [1000, 2000, 4000], [], true⟩ :=
  c7_retry_ceiling.2 (fun _ => true) [] (fun _ _ => rfl)

/-- History of the claim C8 counterexample: the payload with neither an
eventName nor a ticketNumber property was submitted once, storing the entry
with the defaulted key (Unknown Event, 0). -/
def hC8 : List ScanResult :=
  submitStep "1" "t1" [] (some ⟨JSValue.undefined, JSValue.undefined⟩)

/-- Claim C8, counterexample: resubmitting the field-free payload against
hC8 would be a duplicate under the spec reading (the history holds an entry
whose pair equals the extracted, defaulted key), but the implementation
compares the raw pre-default fields — undefined never strictly equals a
stored value — and classifies it valid. -/
theorem c8_counterexample :
    ReachableHistory hC8 ∧
    specDefaultedDuplicate hC8 ⟨JSValue.undefined, JSValue.undefined⟩ = true ∧
    (processQRCode hC8 (some ⟨JSValue.undefined, JSValue.undefined⟩)).status =
      ScanStatus.valid :=
  ⟨ReachableHistory.step "1" "t1" _ [] ReachableHistory.nil, by decide, by decide⟩

/-- Claim C8, amended: the stored record takes eventName with fallback
"Unknown Event" and ticketNumber with fallback 0, but the duplicate check
is performed on the raw pre-default field values; in particular the
field-free payload yields eventName "Unknown Event", ticketNumber 0 and
status valid against every reachable history. -/
theorem c8_amended :
    (∀ (h : List ScanResult) (td : TicketData),
        (processQRCode h (some td)).eventName = jsOr td.eventName (JSValue.str "Unknown Event") ∧
        (processQRCode h (some td)).ticketNumber = jsOr td.ticketNumber (JSValue.num 0)) ∧
    (∀ (h : List ScanResult) (td : TicketData),
        ((processQRCode h (some td)).status = ScanStatus.duplicate ↔
          ∃ r ∈ h, entryMatches td r = true)) ∧
    (∀ (h : List ScanResult), ReachableHistory h →
        (processQRCode h (some ⟨JSValue.undefined, JSValue.undefined⟩)).eventName =
          JSValue.str "Unknown Event" ∧
        (processQRCode h (some ⟨JSValue.undefined, JSValue.undefined⟩)).ticketNumber =
          JSValue.num 0 ∧
        (processQRCode h (some ⟨JSValue.undefined, JSValue.undefined⟩)).status =
          ScanStatus.valid) := by
  have key : ∀ (h : List ScanResult) (td : TicketData),
      (existingScan h td).isSome = true ↔ ∃ r ∈ h, entryMatches td r = true := by
    intro h td
    simpa [existingScan] using @List.find?_isSome ScanResult h (entryMatches td)
  refine ⟨fun h td => ⟨rfl, rfl⟩, ?_, ?_⟩
  · intro h td
    by_cases hf : (existingScan h td).isSome = true
    · exact iff_of_true (by simp [processQRCode, hf]) ((key h td).mp hf)
    · refine iff_of_false ?_ (fun hex => hf ((key h td).mpr hex))
      intro hs
      exact absurd hs (by simp [processQRCode, hf])
  · intro h hr
    refine ⟨rfl, rfl, ?_⟩
    have hf : ¬ (existingScan h ⟨JSValue.undefined, JSValue.undefined⟩).isSome = true := by
      intro hf
      obtain ⟨r, hfind⟩ := Option.isSome_iff_exists.mp hf
      have hfind' : h.find? (entryMatches ⟨JSValue.undefined, JSValue.undefined⟩) = some r :=
        hfind
      have hmem : r ∈ h := List.mem_of_find?_eq_some hfind'
      have hp := List.find?_some hfind'
      rw [entryMatches, Bool.and_eq_true] at hp
      have heq : r.eventName = JSValue.undefined := strictEq_eq hp.1
      have hg := (reachable_goodEntry hr r hmem).1
      rw [heq] at hg
      exact absurd hg (by decide)
    simp [processQRCode, hf]

/-- Claim C8, witness for the amended theorem: against the empty history
the field-free payload is stored as (Unknown Event, 0) with status
valid. -/
theorem c8_witness :
    (processQRCode [] (some ⟨JSValue.undefined, JSValue.undefined⟩)).status =
      ScanStatus.valid :=
  (c8_amended.2.2 [] ReachableHistory.nil).2.2

/-- Claim C9: on a tick with the refs present and scanning active, if the
2d context is unavailable, the video has not reached HAVE_ENOUGH_DATA, or
a reported frame dimension is zero, the tick reschedules the next tick and
returns with no callback invocation and no state change — and likewise
when the frame is fine but no QR code is found. The embedding is a total
function, so every such branch returns normally rather than raising. -/
theorem c9_benign_tick :
    (∀ (autoClose : Bool) (src : FrameSource) (s : DebounceState) (now : Int),
        (src.hasContext = false ∨ src.hasEnoughData = false ∨
          src.videoWidth = 0 ∨ src.videoHeight = 0) →
        scanQRCodeTick true true autoClose src s now = ⟨TickNext.rescheduled, none, s⟩) ∧
    (∀ (autoClose : Bool) (src : FrameSource) (s : DebounceState) (now : Int),
        src.decoded = none →
        scanQRCodeTick true true autoClose src s now = ⟨TickNext.rescheduled, none, s⟩) := by
  constructor
  · intro ac src s now hbenign
    obtain ⟨ctx, rdy, w, hgt, dec⟩ := src
    simp only at hbenign
    rcases hbenign with h | h | h | h
    · subst h
      simp [scanQRCodeTick]
    · subst h
      simp [scanQRCodeTick]
    · subst h
      cases ctx <;> cases rdy <;> simp [scanQRCodeTick]
    · subst h
      cases ctx <;> cases rdy <;> simp [scanQRCodeTick]
  · intro ac src s now hdec
    obtain ⟨ctx, rdy, w, hgt, dec⟩ := src
    simp only at hdec
    subst hdec
    cases ctx <;> cases rdy <;> simp [scanQRCodeTick]

/-- Claim C9, witness: with a primed context but a zero-by-zero frame and
no decode, the tick reschedules and leaves the state alone. -/
theorem c9_witness :
    scanQRCodeTick true true false ⟨true, true, 0, 0, none⟩ ⟨"", 0⟩ 0 =
      ⟨TickNext.rescheduled, none, ⟨"", 0⟩⟩ :=
  c9_benign_tick.1 false ⟨true, true, 0, 0, none⟩ ⟨"", 0⟩ 0 (Or.inr (Or.inr (Or.inl rfl)))

/-- Claim C10: with no authenticated user, addScanResult returns at once
with no result value: it makes no store insert call, raises nothing, and
leaves the cache unchanged, for every cache, payload and insert reply. -/
theorem c10_unauthenticated_noop :
    ∀ (cache : List ScanResult) (d : ScanResultData) (reply : Option ScanResult),
      addScanResult none cache d reply = ⟨AddOutcome.skipped, 0, cache⟩ :=
  fun _ _ _ => rfl
